import Mathlib

/-!
Verification development for the `evadir-disparar` arcade shooter
(`src/juego/control_juego.py`, `figura.py`, `moneda.py`, `proyectil.py`).

Shallow embedding conventions:
* Python ints are `ℤ`/`ℕ`, Python floats are `ℚ` with exact arithmetic
  (one dedicated type `FloatVal` models the IEEE special values where the
  dt-validation behaviour depends on them).
* Mutable objects become immutable records; in-place mutation becomes
  explicit state threading in the iteration order of the source loops.
* Code living in files that are not part of the sources at hand
  (`vector2d.py`, `jugador.py`, `enemigo.py`) is modelled from the spec and
  marked as such in its doc comment; nondeterminism (`random`, pygame
  screen geometry, player/enemy steering) is captured by an explicit
  environment record `Entorno` that all theorems quantify over.
-/

/-- Planar vector with rational coordinates (`vector2d.py`, `Vector2D`). -/
structure Vector2D where
  x : ℚ
  y : ℚ
deriving DecidableEq, Repr

/-- Componentwise difference, `Vector2D.__sub__`. -/
def Vector2D.sub (a b : Vector2D) : Vector2D :=
  { x := a.x - b.x, y := a.y - b.y }

/-- Squared Euclidean norm of a vector. -/
def Vector2D.normaCuadrada (v : Vector2D) : ℚ :=
  v.x * v.x + v.y * v.y

/-- Modelled from the spec: `vector2d.py` is not among the sources; per §3 the
magnitude is the Euclidean norm of the vector.  The comparison
`magnitud ≤ b` used by the collision test is embedded by the equivalent
rational test `0 ≤ b ∧ x*x + y*y ≤ b*b`; the equivalence with the real
square-root comparison is proved in the theorem for the collision claim. -/
def Vector2D.magnitudLe (v : Vector2D) (b : ℚ) : Bool :=
  decide (0 ≤ b ∧ v.normaCuadrada ≤ b * b)

/-- Base circular figure (`figura.py`, class `Figura`): position, radius,
active flag.  Rendering state (pantalla, color) is out of the core model. -/
structure Figura where
  posicion : Vector2D
  radio : ℤ
  activo : Bool
deriving DecidableEq, Repr

/-- `Figura.colision` (figura.py lines 176-206): false unless both figures are
active, otherwise distance between centers ≤ sum of radii. -/
def Figura.colision (a otro : Figura) : Bool :=
  if !(a.activo && otro.activo) then
    false
  else
    (a.posicion.sub otro.posicion).magnitudLe ((a.radio : ℚ) + (otro.radio : ℚ))

/-- Reward kinds of a coin (`moneda.py`, `tipos_disponibles`);
`danio` stands for the source string with the eñe. -/
inductive TipoMejora where
  | velocidad
  | danio
  | rapidez_disparo
  | puntos
deriving DecidableEq, Repr

/-- The dictionary returned by `Moneda.recolectar`. -/
structure MejoraInfo where
  tipo : TipoMejora
  valor : ℕ
  puntos : ℕ
deriving DecidableEq, Repr

/-- Coin (`moneda.py`, class `Moneda`).  `valor_mejora` is a positive int at
construction; lifetime fields as set by the constructor. -/
structure Moneda extends Figura where
  tipo_mejora : TipoMejora
  valor_mejora : ℕ
  tiempo_vida : ℚ
  tiempo_vida_maximo : ℚ
  angulo_rotacion : ℚ
  velocidad_rotacion : ℚ
deriving DecidableEq, Repr

/-- The `Moneda` constructor with an explicit reward kind, as invoked by
`ControlJuego._generar_moneda_recompensa`: radius 15, active, lifetime 10,
rotation speed 3. -/
def Moneda.crear (pos : Vector2D) (tipo : TipoMejora) (valor : ℕ) : Moneda :=
  { posicion := pos
    radio := 15
    activo := true
    tipo_mejora := tipo
    valor_mejora := valor
    tiempo_vida := 10
    tiempo_vida_maximo := 10
    angulo_rotacion := 0
    velocidad_rotacion := 3 }

/-- `Moneda.actualizar` (moneda.py lines 114-147) for an already validated
`dt > 0` (the session validates `dt` before any per-entity update runs):
if inactive do nothing, otherwise advance the rotation, decrease the
lifetime and deactivate when it reaches 0. -/
def Moneda.actualizar (m : Moneda) (dt : ℚ) : Moneda :=
  if !m.activo then m
  else
    let m1 : Moneda := { m with
      angulo_rotacion := m.angulo_rotacion + m.velocidad_rotacion * dt
      tiempo_vida := m.tiempo_vida - dt }
    if m1.tiempo_vida ≤ 0 then { m1 with activo := false } else m1

/-- `Moneda.recolectar` (moneda.py lines 215-237): unconditionally marks the
coin inactive and returns the reward dictionary; there is no guard on the
current `activo` value. -/
def Moneda.recolectar (m : Moneda) : Moneda × MejoraInfo :=
  ({ m with activo := false },
   { tipo := m.tipo_mejora
     valor := m.valor_mejora
     puntos := if m.tipo_mejora = TipoMejora.puntos then m.valor_mejora else 0 })

/-- Projectile (`proyectil.py`, class `Proyectil`). -/
structure Proyectil extends Figura where
  direccion : Vector2D
  velocidad : ℚ
  tiempo_vida : ℚ
deriving DecidableEq, Repr

/-- Enemy (`enemigo.py`, not among the sources).  Modelled from the spec:
extends Entity with an `int` health; the pursuit target back-reference is
kept outside the record (movement is received from the environment). -/
structure Enemigo extends Figura where
  vida : ℤ
deriving DecidableEq, Repr

/-- Modelled from the spec: `enemigo.py` is not among the sources.  Per §3,
`receive_damage()` decrements health, returns whether the hit was lethal,
and on a lethal hit sets `active = false`. -/
def Enemigo.recibir_dano (e : Enemigo) : Enemigo × Bool :=
  let v := e.vida - 1
  if v ≤ 0 then ({ e with vida := v, activo := false }, true)
  else ({ e with vida := v }, false)

/-- The player's upgrade-modifier set (the `Jugador.mejoras` dictionary, as
reset by `ControlJuego.reiniciar_juego`). -/
structure Mejoras where
  velocidad_misil : ℚ
  danio_misil : ℤ
  rapidez_disparo : ℚ
  puntos_extra : ℤ
deriving DecidableEq, Repr

/-- Player (`jugador.py`, not among the sources).  Modelled from the spec:
an entity owning the projectile collection, a firing cooldown and the
upgrade modifiers. -/
structure Jugador extends Figura where
  proyectiles : List Proyectil
  mejoras : Mejoras
  cooldown_disparo : ℚ
deriving DecidableEq, Repr

/-- Modelled from the spec: `jugador.py` is not among the sources.  Per §4.4,
`apply_upgrade(kind, value)` mutates the matching modifier: speed and fire
rate multiply their multiplier (fire rate also recomputes the cooldown as a
monotone decrease of the 0.3 base), damage adds to the damage bonus; the
`puntos` kind is tracked in the `puntos_extra` modifier and its score
effect is applied by the session from the returned reward dictionary. -/
def Jugador.aplicar_mejora (j : Jugador) (tipo : TipoMejora) (valor : ℕ) : Jugador :=
  match tipo with
  | TipoMejora.velocidad =>
      { j with mejoras := { j.mejoras with
          velocidad_misil := j.mejoras.velocidad_misil * (valor : ℚ) } }
  | TipoMejora.danio =>
      { j with mejoras := { j.mejoras with
          danio_misil := j.mejoras.danio_misil + (valor : ℤ) } }
  | TipoMejora.rapidez_disparo =>
      let r := j.mejoras.rapidez_disparo * (valor : ℚ)
      { j with
          mejoras := { j.mejoras with rapidez_disparo := r }
          cooldown_disparo := if r = 0 then j.cooldown_disparo else 3 / 10 / r }
  | TipoMejora.puntos =>
      { j with mejoras := { j.mejoras with
          puntos_extra := j.mejoras.puntos_extra + (valor : ℤ) } }

/-- The game-session state (`ControlJuego`): all fields that the update
pipeline reads or writes.  `num_fondos` is the length of the loaded
background list. -/
structure ControlJuego where
  puntos : ℤ
  jugador : Jugador
  nivel_actual : ℕ
  enemigos_eliminados_nivel : ℕ
  enemigos_para_siguiente_nivel : ℕ
  jugando : Bool
  game_over : Bool
  tiempo_desde_ultimo_dano : ℚ
  cooldown_dano : ℚ
  enemigos : List Enemigo
  monedas : List Moneda
  tiempo_enemigo : ℚ
  intervalo_enemigo : ℚ
  fondo_actual : ℕ
  num_fondos : ℕ
deriving DecidableEq, Repr

/-- Environment: everything the update pipeline consumes that lives outside
the sources at hand — the `random` module draws (spawn position, spawn
radius, coin kind), the enemy constructor's initial health (`enemigo.py`),
and the per-frame steering of player and enemies (`jugador.py`,
`enemigo.py`; spec §4.2 steps 3-4 treat them as out-of-core contracts).
Streams are indexed by the session's draw counter. -/
structure Entorno where
  movJugador : ℚ → Jugador → Jugador
  movEnemigo : ℚ → Enemigo → Enemigo
  posAleatoria : ℕ → Vector2D
  radioAleatorio : ℕ → ℤ
  vidaInicial : ℤ
  tipoAleatorio : ℕ → TipoMejora
  rnd : ℕ

/-- `ControlJuego.subir_nivel` (control_juego.py lines 154-164): next level,
reset the per-level kill counter, advance the background index clamped to
the last loaded background, tighten the spawn interval by 0.5 with floor 2. -/
def subir_nivel (s : ControlJuego) : ControlJuego :=
  { s with
      nivel_actual := s.nivel_actual + 1
      enemigos_eliminados_nivel := 0
      fondo_actual := min (s.fondo_actual + 1) (s.num_fondos - 1)
      intervalo_enemigo := max 2 (s.intervalo_enemigo - 1/2) }

/-- `ControlJuego.respawnear_enemigo` (lines 339-360): append a fresh enemy at
a random position with a random radius; the fresh enemy's health comes from
the enemy constructor (environment). -/
def respawnear_enemigo (env : Entorno) (s : ControlJuego) : ControlJuego × Entorno :=
  let nuevo : Enemigo :=
    { posicion := env.posAleatoria env.rnd
      radio := env.radioAleatorio env.rnd
      activo := true
      vida := env.vidaInicial }
  ({ s with enemigos := s.enemigos ++ [nuevo] }, { env with rnd := env.rnd + 1 })

/-- `ControlJuego._generar_moneda_recompensa` (lines 362-378): coin value
`min(3, nivel_actual // 2 + 1)`, random kind, at the given position. -/
def generar_moneda_recompensa (env : Entorno) (s : ControlJuego) (pos : Vector2D) :
    ControlJuego × Entorno :=
  let valor := min 3 (s.nivel_actual / 2 + 1)
  let m := Moneda.crear pos (env.tipoAleatorio env.rnd) valor
  ({ s with monedas := s.monedas ++ [m] }, { env with rnd := env.rnd + 1 })

/-- Hit handling of `_verificar_colisiones_proyectiles` (lines 309-322), on
the result of `recibir_dano`: a lethal kill that left the enemy inactive
awards one point, counts toward the level quota, drops a reward coin and
levels up when the quota is reached; a hit on a still-active enemy awards
0 points. -/
def procesarImpacto (env : Entorno) (s : ControlJuego) (de : Enemigo × Bool) :
    ControlJuego × Entorno :=
  if de.2 then
    if !de.1.activo then
      let s1 : ControlJuego := { s with
        puntos := s.puntos + 1
        enemigos_eliminados_nivel := s.enemigos_eliminados_nivel + 1 }
      let s2 := generar_moneda_recompensa env s1 de.1.posicion
      if s2.1.enemigos_para_siguiente_nivel ≤ s2.1.enemigos_eliminados_nivel then
        (subir_nivel s2.1, s2.2)
      else s2
    else ({ s with puntos := s.puntos + 0 }, env)
  else (s, env)

/-- Inner loop of `_verificar_colisiones_proyectiles` (lines 306-323): one
projectile against the enemy list, threading the session scalars.  On a
collision the enemy receives damage and the hit is processed; the
projectile is set inactive after any resolved collision (the loop then
continues, but an inactive projectile no longer collides). -/
def pasadaEnemigos :
    List Enemigo → Entorno → Proyectil → ControlJuego →
    Proyectil × List Enemigo × ControlJuego × Entorno
  | [], env, p, s => (p, [], s, env)
  | e :: resto, env, p, s =>
    if p.toFigura.colision e.toFigura then
      let de := e.recibir_dano
      let se := procesarImpacto env s de
      let r := pasadaEnemigos resto se.2 { p with activo := false } se.1
      (r.1, de.1 :: r.2.1, r.2.2)
    else
      let r := pasadaEnemigos resto env p s
      (r.1, e :: r.2.1, r.2.2)

/-- Outer loop of `_verificar_colisiones_proyectiles`: each projectile of the
snapshot in order, threading the (object-mutated) enemy list and scalars. -/
def pasadaProyectiles :
    List Proyectil → Entorno → List Enemigo → ControlJuego →
    List Proyectil × List Enemigo × ControlJuego × Entorno
  | [], env, es, s => ([], es, s, env)
  | p :: ps, env, es, s =>
    let r1 := pasadaEnemigos es env p s
    let r2 := pasadaProyectiles ps r1.2.2.2 r1.2.1 r1.2.2.1
    (r1.1 :: r2.1, r2.2)

/-- `ControlJuego._verificar_colisiones_proyectiles` (lines 294-323). -/
def verificar_colisiones_proyectiles (env : Entorno) (s : ControlJuego) :
    ControlJuego × Entorno :=
  let r := pasadaProyectiles s.jugador.proyectiles env s.enemigos s
  ({ r.2.2.1 with
      jugador := { r.2.2.1.jugador with proyectiles := r.1 }
      enemigos := r.2.1 }, r.2.2.2)

/-- Loop of `_verificar_colision_jugador_enemigo` (lines 325-337): for each
enemy colliding with the player while the damage cooldown has elapsed,
subtract 2 points and reset the cooldown timer. -/
def pasadaJugadorEnemigo : List Enemigo → ControlJuego → ControlJuego
  | [], s => s
  | e :: resto, s =>
    if s.jugador.toFigura.colision e.toFigura ∧
        s.cooldown_dano ≤ s.tiempo_desde_ultimo_dano then
      pasadaJugadorEnemigo resto
        { s with puntos := s.puntos - 2, tiempo_desde_ultimo_dano := 0 }
    else
      pasadaJugadorEnemigo resto s

/-- `ControlJuego._verificar_colision_jugador_enemigo` (lines 325-337). -/
def verificar_colision_jugador_enemigo (s : ControlJuego) : ControlJuego :=
  pasadaJugadorEnemigo s.enemigos s

/-- `ControlJuego._actualizar_monedas` (lines 380-391): tick every active
coin. -/
def actualizar_monedas (dt : ℚ) (s : ControlJuego) : ControlJuego :=
  { s with monedas := s.monedas.map (fun m => if m.activo then m.actualizar dt else m) }

/-- Loop of `_verificar_recoleccion_monedas` (lines 393-413) over the snapshot
of the coin list: an active coin colliding with the player is collected
(`recolectar`), its upgrade applied to the player, its bonus points added
when positive, and the coin removed from the live list; other coins are
kept.  Returns the resulting live list and state. -/
def pasadaMonedas : List Moneda → ControlJuego → List Moneda × ControlJuego
  | [], s => ([], s)
  | m :: resto, s =>
    if m.activo && s.jugador.toFigura.colision m.toFigura then
      let mejora := (m.recolectar).2
      let s1 : ControlJuego :=
        { s with jugador := s.jugador.aplicar_mejora mejora.tipo mejora.valor }
      let s2 : ControlJuego :=
        if 0 < mejora.puntos then { s1 with puntos := s1.puntos + (mejora.puntos : ℤ) }
        else s1
      pasadaMonedas resto s2
    else
      let r := pasadaMonedas resto s
      (m :: r.1, r.2)

/-- `ControlJuego._verificar_recoleccion_monedas` (lines 393-413). -/
def verificar_recoleccion_monedas (s : ControlJuego) : ControlJuego :=
  let r := pasadaMonedas s.monedas s
  { r.2 with monedas := r.1 }

/-- Steps 1-2 of `ControlJuego.actualizar` (lines 244-251): advance the damage
cooldown and the spawn timer, then spawn one enemy by time when the timer
elapsed and fewer than 3 enemies are active, resetting the timer. -/
def pasoTiempos (env : Entorno) (dt : ℚ) (s : ControlJuego) : ControlJuego × Entorno :=
  let s1 : ControlJuego := { s with
    tiempo_desde_ultimo_dano := s.tiempo_desde_ultimo_dano + dt
    tiempo_enemigo := s.tiempo_enemigo + dt }
  let activos := (s1.enemigos.filter (fun e => e.activo)).length
  if s1.intervalo_enemigo ≤ s1.tiempo_enemigo ∧ activos < 3 then
    let r := respawnear_enemigo env s1
    ({ r.1 with tiempo_enemigo := 0 }, r.2)
  else (s1, env)

/-- Step 2 of `ControlJuego.actualizar` (lines 254-258): advance the player
and every active enemy (steering supplied by the environment). -/
def pasoMover (env : Entorno) (dt : ℚ) (s : ControlJuego) : ControlJuego :=
  { s with
      jugador := env.movJugador dt s.jugador
      enemigos := s.enemigos.map (fun e => if e.activo then env.movEnemigo dt e else e) }

/-- Step 5 of `ControlJuego.actualizar` (lines 268-275): spawn at most one
replacement enemy when some enemy is inactive and fewer than 5 are active. -/
def pasoMantenimiento (env : Entorno) (s : ControlJuego) : ControlJuego × Entorno :=
  let activos := (s.enemigos.filter (fun e => e.activo)).length
  let inactivos := (s.enemigos.filter (fun e => !e.activo)).length
  if 0 < inactivos ∧ activos < 5 then respawnear_enemigo env s else (s, env)

/-- Step 6 of `ControlJuego.actualizar` (lines 277-281): if the score is
depleted and the session is not already game over, enter game over, stop
running and clamp the score to 0. -/
def pasoGameOver (s : ControlJuego) : ControlJuego :=
  if s.puntos ≤ 0 ∧ s.game_over = false then
    { s with game_over := true, jugando := false, puntos := 0 }
  else s

/-- Step 9 of `ControlJuego.actualizar` (lines 289-292): sweep inactive
enemies, projectiles and coins out of their collections. -/
def pasoBarrido (s : ControlJuego) : ControlJuego :=
  { s with
      enemigos := s.enemigos.filter (fun e => e.activo)
      jugador := { s.jugador with
        proyectiles := s.jugador.proyectiles.filter (fun p => p.activo) }
      monedas := s.monedas.filter (fun m => m.activo) }

/-- Code steps 1-5 of `ControlJuego.actualizar` chained: timers and time
spawn, movement, projectile collisions, player-enemy collision, replacement
spawning.  Its first component is the state the game-over check of step 6
observes. -/
def trasPaso5 (env : Entorno) (dt : ℚ) (s : ControlJuego) : ControlJuego × Entorno :=
  let r1 := pasoTiempos env dt s
  let r2 := verificar_colisiones_proyectiles r1.2 (pasoMover r1.2 dt r1.1)
  pasoMantenimiento r2.2 (verificar_colision_jugador_enemigo r2.1)

/-- The state after code step 5, i.e. the state the game-over check of step 6
observes. -/
def estadoTrasPaso5 (env : Entorno) (dt : ℚ) (s : ControlJuego) : ControlJuego :=
  (trasPaso5 env dt s).1

/-- `ControlJuego.actualizar` (lines 216-292), in the exact statement order of
the source: validate `dt`, early-return when not running, then timers and
time spawn (1), movement (2), projectile collisions (3), player-enemy
collision (4), replacement spawning (5), game-over check (6), coin ticking
(7), coin collection (8) and the sweep (9).  Also returns the environment
with the spawn draws consumed. -/
def actualizar (env : Entorno) (dt : ℚ) (s : ControlJuego) :
    Except Unit (ControlJuego × Entorno) :=
  if dt ≤ 0 then Except.error ()
  else if s.jugando = false then Except.ok (s, env)
  else
    let r := trasPaso5 env dt s
    Except.ok (pasoBarrido (verificar_recoleccion_monedas
      (actualizar_monedas dt (pasoGameOver r.1))), r.2)

/-- Modelled from the spec: the per-call sequence exactly as §4.2 orders it —
coins are advanced with the other entities (step 5), Player × Coin
resolution is step 8, population maintenance step 9, the game-over check
step 10 and the sweep step 11.  Stated only to compare against
`actualizar`, which implements a different order. -/
def actualizar_spec (env : Entorno) (dt : ℚ) (s : ControlJuego) :
    Except Unit (ControlJuego × Entorno) :=
  if dt ≤ 0 then Except.error ()
  else if s.jugando = false then Except.ok (s, env)
  else
    let r1 := pasoTiempos env dt s
    let r2 := verificar_colisiones_proyectiles r1.2
      (actualizar_monedas dt (pasoMover r1.2 dt r1.1))
    let s4 := verificar_recoleccion_monedas (verificar_colision_jugador_enemigo r2.1)
    let r3 := pasoMantenimiento r2.2 s4
    Except.ok (pasoBarrido (pasoGameOver r3.1), r3.2)

/-- Game-over flag of an update result (`false` on a validation error). -/
def resultadoGameOver (r : Except Unit (ControlJuego × Entorno)) : Bool :=
  match r with
  | Except.ok p => p.1.game_over
  | Except.error _ => false

/-- Running flag of an update result (`true` on a validation error). -/
def resultadoJugando (r : Except Unit (ControlJuego × Entorno)) : Bool :=
  match r with
  | Except.ok p => p.1.jugando
  | Except.error _ => true

/-- Score of an update result (`0` on a validation error). -/
def resultadoPuntos (r : Except Unit (ControlJuego × Entorno)) : ℤ :=
  match r with
  | Except.ok p => p.1.puntos
  | Except.error _ => 0

/-- A sequence of update calls with the given frame times, short-circuiting on
a validation error, threading the spawn draws through the environment. -/
def ejecutar : List ℚ → Entorno → ControlJuego → Except Unit (ControlJuego × Entorno)
  | [], env, s => Except.ok (s, env)
  | dt :: resto, env, s =>
    match actualizar env dt s with
    | Except.error e => Except.error e
    | Except.ok p => ejecutar resto p.2 p.1

/-- IEEE floating-point values as far as the dt validation is concerned:
NaN, the two infinities, and finite values. -/
inductive FloatVal where
  | nan
  | inf
  | neginf
  | fin (q : ℚ)
deriving DecidableEq, Repr

/-- Whether a float value is finite. -/
def FloatVal.esFinito : FloatVal → Bool
  | FloatVal.fin _ => true
  | _ => false

/-- The IEEE comparison `dt <= 0`: false for NaN (all comparisons with NaN
are false) and for positive infinity, true for negative infinity, the
rational comparison for finite values. -/
def FloatVal.leCero : FloatVal → Bool
  | FloatVal.nan => false
  | FloatVal.inf => false
  | FloatVal.neginf => true
  | FloatVal.fin q => decide (q ≤ 0)

/-- The dt-validation gate of `ControlJuego.actualizar` (line 238): the call
raises `ValueError` exactly when the float comparison `dt <= 0` holds. -/
def actualizarLanzaValueError (dt : FloatVal) : Bool :=
  dt.leCero

/-- The game-over safety invariant: whenever the game-over flag is set, the
session is stopped and the score is non-negative. -/
def InvGameOver (s : ControlJuego) : Prop :=
  s.game_over = true → s.jugando = false ∧ 0 ≤ s.puntos

/-- A concrete environment: identity steering, fixed spawn draws, fresh
enemies with 3 health, coins always of the `puntos` kind. -/
def entorno0 : Entorno :=
  { movJugador := fun _ j => j
    movEnemigo := fun _ e => e
    posAleatoria := fun _ => { x := 100, y := 100 }
    radioAleatorio := fun _ => 20
    vidaInicial := 3
    tipoAleatorio := fun _ => TipoMejora.puntos
    rnd := 0 }

/-- A concrete player at the origin with no projectiles and identity
modifiers. -/
def jugador0 : Jugador :=
  { posicion := { x := 0, y := 0 }
    radio := 20
    activo := true
    proyectiles := []
    mejoras := { velocidad_misil := 1, danio_misil := 1, rapidez_disparo := 1, puntos_extra := 0 }
    cooldown_disparo := 3/10 }

/-- A concrete active enemy overlapping the player. -/
def enemigo0 : Enemigo :=
  { posicion := { x := 0, y := 0 }, radio := 20, activo := true, vida := 5 }

/-- A concrete active bonus coin (kind `puntos`, value 3) overlapping the
player. -/
def moneda0 : Moneda := Moneda.crear { x := 0, y := 0 } TipoMejora.puntos 3

/-- A concrete running session: score 2, one overlapping enemy, one
overlapping bonus coin, the damage cooldown about to elapse. -/
def sesion0 : ControlJuego :=
  { puntos := 2
    jugador := jugador0
    nivel_actual := 1
    enemigos_eliminados_nivel := 0
    enemigos_para_siguiente_nivel := 3
    jugando := true
    game_over := false
    tiempo_desde_ultimo_dano := 0
    cooldown_dano := 1
    enemigos := [enemigo0]
    monedas := [moneda0]
    tiempo_enemigo := 0
    intervalo_enemigo := 5
    fondo_actual := 0
    num_fondos := 1 }

/-- The same session, stopped. -/
def sesionParada : ControlJuego := { sesion0 with jugando := false }

/-- A concrete active projectile overlapping the enemy. -/
def proyectil0 : Proyectil :=
  { posicion := { x := 0, y := 0 }
    radio := 8
    activo := true
    direccion := { x := 1, y := 0 }
    velocidad := 300
    tiempo_vida := 2 }

/-- The concrete enemy with 1 health, so that the next hit is lethal. -/
def enemigoDebil : Enemigo := { enemigo0 with vida := 1 }

/-- A concrete session already in game over: stopped, score clamped to 0. -/
def sesionTerminada : ControlJuego :=
  { sesion0 with jugando := false, game_over := true, puntos := 0 }


/-! ## Basic facts about the embedded operations -/

theorem recibir_dano_posicion (e : Enemigo) :
    e.recibir_dano.1.posicion = e.posicion := by
  by_cases h : e.vida - 1 ≤ 0 <;> simp [Enemigo.recibir_dano, h]

theorem colision_izq_inactiva (a b : Figura) (h : a.activo = false) :
    Figura.colision a b = false := by
  simp [Figura.colision, h]

theorem pasadaEnemigos_inactivo (es : List Enemigo) (env : Entorno) (p : Proyectil)
    (s : ControlJuego) (hp : p.activo = false) :
    pasadaEnemigos es env p s = (p, es, s, env) := by
  induction es generalizing env s with
  | nil => rfl
  | cons e resto ih =>
      have hc : p.toFigura.colision e.toFigura = false := colision_izq_inactiva _ _ hp
      simp [pasadaEnemigos, hc, ih]

theorem pasadaEnemigos_sin_colision (es : List Enemigo) (env : Entorno) (p : Proyectil)
    (s : ControlJuego) (h : ∀ e ∈ es, p.toFigura.colision e.toFigura = false) :
    pasadaEnemigos es env p s = (p, es, s, env) := by
  induction es generalizing env s with
  | nil => rfl
  | cons e resto ih =>
      have hc := h e (List.mem_cons_self e resto)
      simp only [pasadaEnemigos, hc, Bool.false_eq_true, if_false]
      simp [ih _ _ (fun e2 he2 => h e2 (List.mem_cons_of_mem e he2))]

theorem pasadaEnemigos_prefijo (es1 : List Enemigo) (es2 : List Enemigo) (env : Entorno)
    (p : Proyectil) (s : ControlJuego)
    (h : ∀ e ∈ es1, p.toFigura.colision e.toFigura = false) :
    pasadaEnemigos (es1 ++ es2) env p s =
      ((pasadaEnemigos es2 env p s).1,
       es1 ++ (pasadaEnemigos es2 env p s).2.1,
       (pasadaEnemigos es2 env p s).2.2) := by
  induction es1 with
  | nil => simp
  | cons e resto ih =>
      have hc := h e (List.mem_cons_self e resto)
      simp only [List.cons_append, pasadaEnemigos, hc, Bool.false_eq_true, if_false]
      simp [ih (fun e2 he2 => h e2 (List.mem_cons_of_mem e he2))]

/-- A projectile deactivated by its first resolved collision stays out of the
rest of the inner pass: unfolding one colliding step. -/
theorem pasadaEnemigos_golpe (e : Enemigo) (resto : List Enemigo) (env : Entorno)
    (p : Proyectil) (s : ControlJuego)
    (h : p.toFigura.colision e.toFigura = true) :
    pasadaEnemigos (e :: resto) env p s =
      ({ p with activo := false },
       e.recibir_dano.1 :: resto,
       procesarImpacto env s e.recibir_dano) := by
  have hinact : ({ p with activo := false } : Proyectil).activo = false := rfl
  simp [pasadaEnemigos, h, pasadaEnemigos_inactivo _ _ _ _ hinact]

/-! ## Preservation of the session flags along the pipeline -/

theorem flags_subir_nivel (s : ControlJuego) :
    (subir_nivel s).game_over = s.game_over ∧ (subir_nivel s).jugando = s.jugando ∧
      (subir_nivel s).puntos = s.puntos := by
  exact ⟨rfl, rfl, rfl⟩

theorem flags_respawnear (env : Entorno) (s : ControlJuego) :
    (respawnear_enemigo env s).1.game_over = s.game_over ∧
      (respawnear_enemigo env s).1.jugando = s.jugando ∧
      (respawnear_enemigo env s).1.puntos = s.puntos := by
  exact ⟨rfl, rfl, rfl⟩

theorem flags_generar_moneda (env : Entorno) (s : ControlJuego) (pos : Vector2D) :
    (generar_moneda_recompensa env s pos).1.game_over = s.game_over ∧
      (generar_moneda_recompensa env s pos).1.jugando = s.jugando := by
  exact ⟨rfl, rfl⟩

theorem flags_procesarImpacto (env : Entorno) (s : ControlJuego) (de : Enemigo × Bool) :
    (procesarImpacto env s de).1.game_over = s.game_over ∧
      (procesarImpacto env s de).1.jugando = s.jugando := by
  simp only [procesarImpacto, generar_moneda_recompensa, subir_nivel]
  split_ifs <;> exact ⟨rfl, rfl⟩

theorem flags_pasadaEnemigos (es : List Enemigo) (env : Entorno) (p : Proyectil)
    (s : ControlJuego) :
    (pasadaEnemigos es env p s).2.2.1.game_over = s.game_over ∧
      (pasadaEnemigos es env p s).2.2.1.jugando = s.jugando := by
  induction es generalizing env p s with
  | nil => exact ⟨rfl, rfl⟩
  | cons e resto ih =>
      by_cases hc : p.toFigura.colision e.toFigura = true
      · simp only [pasadaEnemigos, hc, if_true]
        have h1 := flags_procesarImpacto env s e.recibir_dano
        have h2 := ih (procesarImpacto env s e.recibir_dano).2
          { p with activo := false } (procesarImpacto env s e.recibir_dano).1
        exact ⟨h2.1.trans h1.1, h2.2.trans h1.2⟩
      · simp only [pasadaEnemigos, hc, if_false]
        exact ih env p s

theorem flags_pasadaProyectiles (ps : List Proyectil) (env : Entorno)
    (es : List Enemigo) (s : ControlJuego) :
    (pasadaProyectiles ps env es s).2.2.1.game_over = s.game_over ∧
      (pasadaProyectiles ps env es s).2.2.1.jugando = s.jugando := by
  induction ps generalizing env es s with
  | nil => exact ⟨rfl, rfl⟩
  | cons p resto ih =>
      simp only [pasadaProyectiles]
      have h1 := flags_pasadaEnemigos es env p s
      have h2 := ih (pasadaEnemigos es env p s).2.2.2 (pasadaEnemigos es env p s).2.1
        (pasadaEnemigos es env p s).2.2.1
      exact ⟨h2.1.trans h1.1, h2.2.trans h1.2⟩

theorem flags_verificar_proyectiles (env : Entorno) (s : ControlJuego) :
    (verificar_colisiones_proyectiles env s).1.game_over = s.game_over ∧
      (verificar_colisiones_proyectiles env s).1.jugando = s.jugando := by
  unfold verificar_colisiones_proyectiles
  exact flags_pasadaProyectiles _ _ _ _

theorem flags_pasadaJugadorEnemigo (es : List Enemigo) (s : ControlJuego) :
    (pasadaJugadorEnemigo es s).game_over = s.game_over ∧
      (pasadaJugadorEnemigo es s).jugando = s.jugando ∧
      (pasadaJugadorEnemigo es s).cooldown_dano = s.cooldown_dano := by
  induction es generalizing s with
  | nil => exact ⟨rfl, rfl, rfl⟩
  | cons e resto ih =>
      by_cases hc : s.jugador.toFigura.colision e.toFigura = true ∧
          s.cooldown_dano ≤ s.tiempo_desde_ultimo_dano
      · simp only [pasadaJugadorEnemigo, if_pos hc]
        exact ih _
      · simp only [pasadaJugadorEnemigo, if_neg hc]
        exact ih s

theorem flags_pasoTiempos (env : Entorno) (dt : ℚ) (s : ControlJuego) :
    (pasoTiempos env dt s).1.game_over = s.game_over ∧
      (pasoTiempos env dt s).1.jugando = s.jugando := by
  simp only [pasoTiempos, respawnear_enemigo]
  split_ifs <;> exact ⟨rfl, rfl⟩

theorem flags_pasoMover (env : Entorno) (dt : ℚ) (s : ControlJuego) :
    (pasoMover env dt s).game_over = s.game_over ∧
      (pasoMover env dt s).jugando = s.jugando ∧
      (pasoMover env dt s).puntos = s.puntos := by
  exact ⟨rfl, rfl, rfl⟩

theorem flags_pasoMantenimiento (env : Entorno) (s : ControlJuego) :
    (pasoMantenimiento env s).1.game_over = s.game_over ∧
      (pasoMantenimiento env s).1.jugando = s.jugando ∧
      (pasoMantenimiento env s).1.puntos = s.puntos := by
  simp only [pasoMantenimiento, respawnear_enemigo]
  split_ifs <;> exact ⟨rfl, rfl, rfl⟩

theorem flags_estadoTrasPaso5 (env : Entorno) (dt : ℚ) (s : ControlJuego) :
    (estadoTrasPaso5 env dt s).game_over = s.game_over ∧
      (estadoTrasPaso5 env dt s).jugando = s.jugando := by
  unfold estadoTrasPaso5 trasPaso5 verificar_colision_jugador_enemigo
  have h1 := flags_pasoTiempos env dt s
  have h2 := flags_pasoMover (pasoTiempos env dt s).2 dt (pasoTiempos env dt s).1
  have h3 := flags_verificar_proyectiles (pasoTiempos env dt s).2
    (pasoMover (pasoTiempos env dt s).2 dt (pasoTiempos env dt s).1)
  have h4 := flags_pasadaJugadorEnemigo
    (verificar_colisiones_proyectiles (pasoTiempos env dt s).2
      (pasoMover (pasoTiempos env dt s).2 dt (pasoTiempos env dt s).1)).1.enemigos
    (verificar_colisiones_proyectiles (pasoTiempos env dt s).2
      (pasoMover (pasoTiempos env dt s).2 dt (pasoTiempos env dt s).1)).1
  have h5 := flags_pasoMantenimiento
    (verificar_colisiones_proyectiles (pasoTiempos env dt s).2
      (pasoMover (pasoTiempos env dt s).2 dt (pasoTiempos env dt s).1)).2
    (pasadaJugadorEnemigo
      (verificar_colisiones_proyectiles (pasoTiempos env dt s).2
        (pasoMover (pasoTiempos env dt s).2 dt (pasoTiempos env dt s).1)).1.enemigos
      (verificar_colisiones_proyectiles (pasoTiempos env dt s).2
        (pasoMover (pasoTiempos env dt s).2 dt (pasoTiempos env dt s).1)).1)
  refine ⟨?_, ?_⟩
  · exact h5.1.trans (h4.1.trans (h3.1.trans (h2.1.trans h1.1)))
  · exact h5.2.1.trans (h4.2.1.trans (h3.2.trans (h2.2.1.trans h1.2)))

theorem flags_actualizar_monedas (dt : ℚ) (s : ControlJuego) :
    (actualizar_monedas dt s).game_over = s.game_over ∧
      (actualizar_monedas dt s).jugando = s.jugando ∧
      (actualizar_monedas dt s).puntos = s.puntos := by
  exact ⟨rfl, rfl, rfl⟩

theorem flags_pasadaMonedas (ms : List Moneda) (s : ControlJuego) :
    (pasadaMonedas ms s).2.game_over = s.game_over ∧
      (pasadaMonedas ms s).2.jugando = s.jugando ∧
      s.puntos ≤ (pasadaMonedas ms s).2.puntos := by
  induction ms generalizing s with
  | nil => exact ⟨rfl, rfl, le_refl _⟩
  | cons m resto ih =>
      by_cases hc : (m.activo && s.jugador.toFigura.colision m.toFigura) = true
      · simp only [pasadaMonedas, hc, if_true]
        by_cases hp : 0 < m.recolectar.2.puntos
        · simp only [if_pos hp]
          refine ⟨(ih _).1, (ih _).2.1, le_trans ?_ (ih _).2.2⟩
          simp only [ControlJuego.puntos]
          omega
        · simp only [if_neg hp]
          exact ih _
      · simp only [pasadaMonedas, hc, Bool.false_eq_true, if_false]
        exact ih s

theorem flags_verificar_recoleccion (s : ControlJuego) :
    (verificar_recoleccion_monedas s).game_over = s.game_over ∧
      (verificar_recoleccion_monedas s).jugando = s.jugando ∧
      s.puntos ≤ (verificar_recoleccion_monedas s).puntos := by
  unfold verificar_recoleccion_monedas
  exact flags_pasadaMonedas _ _

theorem flags_pasoBarrido (s : ControlJuego) :
    (pasoBarrido s).game_over = s.game_over ∧ (pasoBarrido s).jugando = s.jugando ∧
      (pasoBarrido s).puntos = s.puntos := by
  exact ⟨rfl, rfl, rfl⟩

/-- Characterization of a running update call as the composition of its
steps. -/
theorem actualizar_correr (env : Entorno) (dt : ℚ) (s : ControlJuego)
    (hdt : 0 < dt) (hj : s.jugando = true) :
    actualizar env dt s =
      Except.ok (pasoBarrido (verificar_recoleccion_monedas
        (actualizar_monedas dt (pasoGameOver (estadoTrasPaso5 env dt s)))),
        (trasPaso5 env dt s).2) := by
  unfold actualizar estadoTrasPaso5
  rw [if_neg (by exact not_le.mpr hdt), if_neg (by simp [hj])]

/-! ## Claim theorems -/

/-- C10: `actualizar` validates `dt` before checking the running flag, so for
every `dt ≤ 0` the call raises `ValueError` (modelled `Except.error ()`)
even when the session is not running; the not-running early return — a
strict no-op on the state — applies only when `dt` is valid. -/
theorem c10_validacion_antes_del_flag (env : Entorno) (dt : ℚ) (s : ControlJuego) :
    (dt ≤ 0 → actualizar env dt s = Except.error ()) ∧
    (s.jugando = false → 0 < dt → actualizar env dt s = Except.ok (s, env)) := by
  constructor
  · intro h
    simp [actualizar, h]
  · intro hj h
    simp [actualizar, not_le.mpr h, hj]

/-- Witness for C10 at a stopped session: a negative `dt` is rejected even
though the session is stopped, and a valid `dt` is a strict no-op. -/
theorem c10_validacion_antes_del_flag_witness :
    actualizar entorno0 (-1) sesionParada = Except.error () ∧
    actualizar entorno0 1 sesionParada = Except.ok (sesionParada, entorno0) :=
  ⟨(c10_validacion_antes_del_flag entorno0 (-1) sesionParada).1 (by norm_num),
   (c10_validacion_antes_del_flag entorno0 1 sesionParada).2 rfl (by norm_num)⟩

/-- C3 counterexample: NaN and +∞ are non-finite, yet the validation gate
(the IEEE comparison `dt <= 0` of line 238) does not hold for them, so the
call raises no input-validation failure on them; the claim that every
non-finite `dt` is rejected is false on the code. -/
theorem c3_contraejemplo :
    FloatVal.esFinito FloatVal.nan = false ∧
    actualizarLanzaValueError FloatVal.nan = false ∧
    FloatVal.esFinito FloatVal.inf = false ∧
    actualizarLanzaValueError FloatVal.inf = false :=
  ⟨rfl, rfl, rfl, rfl⟩

/-- C3 amended: `actualizar` rejects exactly those `dt` with `dt <= 0` under
the IEEE comparison — every finite `dt ≤ 0` and −∞ — with no clamping; NaN
and +∞ pass the gate unrejected, and for every finite `dt > 0` no error is
raised. -/
theorem c3_enmendada (q : ℚ) (env : Entorno) (s : ControlJuego) :
    (q ≤ 0 → actualizarLanzaValueError (FloatVal.fin q) = true ∧
      actualizar env q s = Except.error ()) ∧
    (0 < q → ∃ p, actualizar env q s = Except.ok p) ∧
    actualizarLanzaValueError FloatVal.neginf = true := by
  refine ⟨fun h => ⟨?_, ?_⟩, fun h => ?_, rfl⟩
  · simp [actualizarLanzaValueError, FloatVal.leCero, h]
  · simp [actualizar, h]
  · by_cases hj : s.jugando = false
    · exact ⟨(s, env), by simp [actualizar, not_le.mpr h, hj]⟩
    · simp only [Bool.not_eq_false] at hj
      exact ⟨_, actualizar_correr env q s h hj⟩

/-- Witness for C3 amended: at `dt = 1` the update succeeds, at `dt = -1`
the gate holds and the call errors. -/
theorem c3_enmendada_witness :
    (∃ p, actualizar entorno0 1 sesion0 = Except.ok p) ∧
    actualizarLanzaValueError (FloatVal.fin (-1)) = true ∧
    actualizar entorno0 (-1) sesion0 = Except.error () :=
  ⟨(c3_enmendada 1 entorno0 sesion0).2.1 (by norm_num),
   ((c3_enmendada (-1) entorno0 sesion0).1 (by norm_num)).1,
   ((c3_enmendada (-1) entorno0 sesion0).1 (by norm_num)).2⟩

/-- C8: each level-up increments the level, resets the per-level kill
counter, and tightens the spawn interval by 0.5 with floor 2; starting
from the initial interval 5.0, after N level-ups the interval is exactly
max(2, 5 - 0.5·N). -/
theorem c8_subir_nivel (s : ControlJuego) :
    (subir_nivel s).nivel_actual = s.nivel_actual + 1 ∧
    (subir_nivel s).enemigos_eliminados_nivel = 0 ∧
    (subir_nivel s).intervalo_enemigo = max 2 (s.intervalo_enemigo - 1/2) ∧
    (s.intervalo_enemigo = 5 → ∀ N : ℕ,
      (subir_nivel^[N] s).intervalo_enemigo = max 2 (5 - (N : ℚ) / 2)) := by
  refine ⟨rfl, rfl, rfl, fun h5 N => ?_⟩
  induction N with
  | zero =>
      rw [Function.iterate_zero_apply, h5]
      rw [max_eq_right (by norm_num : (2:ℚ) ≤ 5 - (0:ℕ) / 2)]
      norm_num
  | succ n ih =>
      rw [Function.iterate_succ_apply']
      show max 2 ((subir_nivel^[n] s).intervalo_enemigo - 1/2) = _
      rw [ih]
      rcases le_total (5 - (n : ℚ)/2) 2 with hc | hc
      · rw [max_eq_left hc, show (2:ℚ) - 1/2 = 3/2 by norm_num,
          max_eq_left (by norm_num : (3:ℚ)/2 ≤ 2),
          max_eq_left (by push_cast; linarith)]
      · rw [max_eq_right hc]
        congr 1
        push_cast
        ring

/-- Swapping the two figures changes the collision test only up to a
commutation of the squared norm and of the radius sum. -/
theorem magnitudLe_sim (a b : Figura) :
    (a.posicion.sub b.posicion).magnitudLe ((a.radio : ℚ) + (b.radio : ℚ)) =
      (b.posicion.sub a.posicion).magnitudLe ((b.radio : ℚ) + (a.radio : ℚ)) := by
  simp only [Vector2D.magnitudLe, Vector2D.normaCuadrada, Vector2D.sub]
  have e1 : (a.posicion.x - b.posicion.x) * (a.posicion.x - b.posicion.x) +
      (a.posicion.y - b.posicion.y) * (a.posicion.y - b.posicion.y) =
      (b.posicion.x - a.posicion.x) * (b.posicion.x - a.posicion.x) +
      (b.posicion.y - a.posicion.y) * (b.posicion.y - a.posicion.y) := by ring
  have e2 : (a.radio : ℚ) + (b.radio : ℚ) = (b.radio : ℚ) + (a.radio : ℚ) := by ring
  apply decide_eq_decide.mpr
  rw [e1, e2]

/-- C9: the collision test is symmetric, false whenever either figure is
inactive, and for two active figures it holds exactly when the Euclidean
distance between the centers is at most the sum of the radii. -/
theorem c9_colision (a b : Figura) :
    Figura.colision a b = Figura.colision b a ∧
    ((a.activo && b.activo) = false → Figura.colision a b = false) ∧
    ((a.activo && b.activo) = true →
      (Figura.colision a b = true ↔
        Real.sqrt (((a.posicion.x - b.posicion.x) ^ 2 +
            (a.posicion.y - b.posicion.y) ^ 2 : ℚ) : ℝ) ≤
          (a.radio : ℝ) + (b.radio : ℝ))) := by
  refine ⟨?_, fun h => ?_, fun h => ?_⟩
  · simp only [Figura.colision]
    rw [magnitudLe_sim, Bool.and_comm]
  · simp [Figura.colision, h]
  · simp only [Figura.colision, h, Bool.not_true, Bool.false_eq_true, if_false,
      Vector2D.magnitudLe, Vector2D.normaCuadrada, Vector2D.sub, decide_eq_true_eq]
    rw [Real.sqrt_le_iff]
    constructor
    · rintro ⟨h0, hn⟩
      constructor
      · exact_mod_cast h0
      · have hq : ((a.posicion.x - b.posicion.x) ^ 2 +
            (a.posicion.y - b.posicion.y) ^ 2 : ℚ) ≤
            ((a.radio : ℚ) + (b.radio : ℚ)) ^ 2 := by nlinarith [hn]
        have := (Rat.cast_le (K := ℝ)).mpr hq
        push_cast at this ⊢
        linarith
    · rintro ⟨h0, hn⟩
      have h0q : (0 : ℚ) ≤ (a.radio : ℚ) + (b.radio : ℚ) := by exact_mod_cast h0
      refine ⟨h0q, ?_⟩
      have hq : ((a.posicion.x - b.posicion.x) ^ 2 +
          (a.posicion.y - b.posicion.y) ^ 2 : ℚ) ≤
          ((a.radio : ℚ) + (b.radio : ℚ)) ^ 2 := by
        have := hn
        push_cast at this
        exact_mod_cast this
      nlinarith [hq]

/-- Witness for C9 at two concrete active overlapping figures and at a
concrete inactive coin figure. -/
theorem c9_colision_witness :
    Figura.colision jugador0.toFigura enemigo0.toFigura =
      Figura.colision enemigo0.toFigura jugador0.toFigura ∧
    (Figura.colision jugador0.toFigura enemigo0.toFigura = true ↔
      Real.sqrt (((jugador0.toFigura.posicion.x - enemigo0.toFigura.posicion.x) ^ 2 +
          (jugador0.toFigura.posicion.y - enemigo0.toFigura.posicion.y) ^ 2 : ℚ) : ℝ) ≤
        (jugador0.toFigura.radio : ℝ) + (enemigo0.toFigura.radio : ℝ)) ∧
    Figura.colision (moneda0.recolectar).1.toFigura enemigo0.toFigura = false :=
  ⟨(c9_colision jugador0.toFigura enemigo0.toFigura).1,
   (c9_colision jugador0.toFigura enemigo0.toFigura).2.2 rfl,
   (c9_colision (moneda0.recolectar).1.toFigura enemigo0.toFigura).2.1 rfl⟩

/-- While the damage cooldown has not elapsed, the player-enemy pass changes
nothing. -/
theorem pasadaJugadorEnemigo_congelada (es : List Enemigo) (s : ControlJuego)
    (h : s.tiempo_desde_ultimo_dano < s.cooldown_dano) :
    pasadaJugadorEnemigo es s = s := by
  induction es with
  | nil => rfl
  | cons e resto ih =>
      have hno : ¬(s.jugador.toFigura.colision e.toFigura = true ∧
          s.cooldown_dano ≤ s.tiempo_desde_ultimo_dano) := by
        rintro ⟨-, hle⟩
        exact absurd h (not_lt.mpr hle)
      simp only [pasadaJugadorEnemigo, if_neg hno]
      exact ih

/-- With no enemy colliding with the player, the player-enemy pass changes
nothing. -/
theorem pasadaJugadorEnemigo_sin_colision (es : List Enemigo) (s : ControlJuego)
    (h : ∀ e ∈ es, s.jugador.toFigura.colision e.toFigura = false) :
    pasadaJugadorEnemigo es s = s := by
  induction es with
  | nil => rfl
  | cons e resto ih =>
      have hno : ¬(s.jugador.toFigura.colision e.toFigura = true ∧
          s.cooldown_dano ≤ s.tiempo_desde_ultimo_dano) := by
        rintro ⟨hcol, -⟩
        rw [h e (List.mem_cons_self e resto)] at hcol
        exact Bool.false_ne_true hcol
      simp only [pasadaJugadorEnemigo, if_neg hno]
      exact ih (fun e2 he2 => h e2 (List.mem_cons_of_mem e he2))

/-- If the cooldown elapsed and some enemy in the list collides with the
player, the pass subtracts exactly 2 points, resets the damage timer to 0,
and changes nothing else. -/
theorem pasadaJugadorEnemigo_golpe (es : List Enemigo) (s : ControlJuego)
    (hcool : 0 < s.cooldown_dano)
    (ht : s.cooldown_dano ≤ s.tiempo_desde_ultimo_dano)
    (h : ∃ e ∈ es, s.jugador.toFigura.colision e.toFigura = true) :
    pasadaJugadorEnemigo es s =
      { s with puntos := s.puntos - 2, tiempo_desde_ultimo_dano := 0 } := by
  induction es with
  | nil => exact absurd h (by simp)
  | cons e resto ih =>
      by_cases hcol : s.jugador.toFigura.colision e.toFigura = true
      · have hyes : s.jugador.toFigura.colision e.toFigura = true ∧
            s.cooldown_dano ≤ s.tiempo_desde_ultimo_dano := ⟨hcol, ht⟩
        simp only [pasadaJugadorEnemigo, if_pos hyes]
        exact pasadaJugadorEnemigo_congelada resto
          { s with puntos := s.puntos - 2, tiempo_desde_ultimo_dano := 0 } hcool
      · have hno : ¬(s.jugador.toFigura.colision e.toFigura = true ∧
            s.cooldown_dano ≤ s.tiempo_desde_ultimo_dano) := fun hh => hcol hh.1
        simp only [pasadaJugadorEnemigo, if_neg hno]
        refine ih ?_
        rcases h with ⟨e2, he2, hc2⟩
        rcases List.mem_cons.mp he2 with rfl | hmem
        · exact absurd hc2 hcol
        · exact ⟨e2, hmem, hc2⟩

/-- C6: in the player-enemy resolution, a collision with an active enemy
while the damage cooldown has elapsed subtracts exactly 2 from the score
and resets the cooldown timer to 0, at most once per pass (the reset
freezes the rest of the pass, given a positive cooldown width); collisions
while the cooldown has not elapsed, and passes with no colliding enemy,
change nothing. -/
theorem c6_dano_jugador_enemigo (s : ControlJuego) (hcool : 0 < s.cooldown_dano) :
    (s.cooldown_dano ≤ s.tiempo_desde_ultimo_dano →
      ((∃ e ∈ s.enemigos, s.jugador.toFigura.colision e.toFigura = true) →
        verificar_colision_jugador_enemigo s =
          { s with puntos := s.puntos - 2, tiempo_desde_ultimo_dano := 0 }) ∧
      ((∀ e ∈ s.enemigos, s.jugador.toFigura.colision e.toFigura = false) →
        verificar_colision_jugador_enemigo s = s)) ∧
    (s.tiempo_desde_ultimo_dano < s.cooldown_dano →
      verificar_colision_jugador_enemigo s = s) := by
  refine ⟨fun ht => ⟨fun h => ?_, fun h => ?_⟩, fun h => ?_⟩
  · exact pasadaJugadorEnemigo_golpe s.enemigos s hcool ht h
  · exact pasadaJugadorEnemigo_sin_colision s.enemigos s h
  · exact pasadaJugadorEnemigo_congelada s.enemigos s h

/-- Witness for C6: with the cooldown elapsed and the overlapping enemy, one
deduction of exactly 2 happens; with the fresh timer, nothing changes. -/
theorem c6_dano_jugador_enemigo_witness :
    verificar_colision_jugador_enemigo
        { sesion0 with tiempo_desde_ultimo_dano := 1 } =
      { { sesion0 with tiempo_desde_ultimo_dano := 1 } with
          puntos := ({ sesion0 with tiempo_desde_ultimo_dano := 1 } : ControlJuego).puntos - 2
          tiempo_desde_ultimo_dano := 0 } ∧
    verificar_colision_jugador_enemigo sesion0 = sesion0 :=
  ⟨((c6_dano_jugador_enemigo { sesion0 with tiempo_desde_ultimo_dano := 1 }
      (by norm_num [sesion0])).1 (by norm_num [sesion0])).1
      ⟨enemigo0, by simp [sesion0], by norm_num [jugador0, enemigo0, sesion0,
        Figura.colision, Vector2D.magnitudLe, Vector2D.normaCuadrada, Vector2D.sub]⟩,
   (c6_dano_jugador_enemigo sesion0 (by norm_num [sesion0])).2
      (by norm_num [sesion0])⟩

/-- C7 counterexample: `Moneda.recolectar` itself is not invoke-once guarded.
Collecting the already-collected (inactive) coin returns the very same
reward dictionary again, with a positive score bonus — not a no-op /
error as the claim states. -/
theorem c7_contraejemplo :
    (moneda0.recolectar).1.activo = false ∧
    ((moneda0.recolectar).1.recolectar).2 = (moneda0.recolectar).2 ∧
    0 < ((moneda0.recolectar).1.recolectar).2.puntos :=
  ⟨rfl, by decide, by decide⟩

/-- Replacing the (unused) `monedas` field of the threaded state only carries
the replacement through the coin-collection pass. -/
theorem pasadaMonedas_campo_monedas (ms : List Moneda) (s : ControlJuego)
    (x : List Moneda) :
    pasadaMonedas ms { s with monedas := x } =
      ((pasadaMonedas ms s).1, { (pasadaMonedas ms s).2 with monedas := x }) := by
  induction ms generalizing s with
  | nil => rfl
  | cons m resto ih =>
      by_cases hc : (m.activo && s.jugador.toFigura.colision m.toFigura) = true
      · by_cases hp : 0 < m.recolectar.2.puntos
        · simp only [pasadaMonedas, hc, if_true, if_pos hp]
          exact ih { s with
            jugador := s.jugador.aplicar_mejora m.recolectar.2.tipo m.recolectar.2.valor
            puntos := s.puntos + (m.recolectar.2.puntos : ℤ) }
        · simp only [pasadaMonedas, hc, if_true, if_neg hp]
          exact ih { s with
            jugador := s.jugador.aplicar_mejora m.recolectar.2.tipo m.recolectar.2.valor }
      · simp only [pasadaMonedas, hc, Bool.false_eq_true, if_false, ih s]

/-- An inactive coin anywhere in the pass contributes nothing to the
resulting session state. -/
theorem pasadaMonedas_saltar_inactiva (ms1 : List Moneda) (m : Moneda)
    (ms2 : List Moneda) (s : ControlJuego) (hm : m.activo = false) :
    (pasadaMonedas (ms1 ++ m :: ms2) s).2 = (pasadaMonedas (ms1 ++ ms2) s).2 := by
  induction ms1 generalizing s with
  | nil =>
      simp only [List.nil_append, pasadaMonedas, hm, Bool.false_and,
        Bool.false_eq_true, if_false]
  | cons m1 resto ih =>
      by_cases hc : (m1.activo && s.jugador.toFigura.colision m1.toFigura) = true
      · by_cases hp : 0 < m1.recolectar.2.puntos
        · simp only [List.cons_append, pasadaMonedas, hc, if_true, if_pos hp]
          exact ih { s with
            jugador := s.jugador.aplicar_mejora m1.recolectar.2.tipo m1.recolectar.2.valor
            puntos := s.puntos + (m1.recolectar.2.puntos : ℤ) }
        · simp only [List.cons_append, pasadaMonedas, hc, if_true, if_neg hp]
          exact ih { s with
            jugador := s.jugador.aplicar_mejora m1.recolectar.2.tipo m1.recolectar.2.valor }
      · simp only [List.cons_append, pasadaMonedas, hc, Bool.false_eq_true, if_false]
        simpa using ih s

/-- C7 amended: `Moneda.recolectar` is unguarded (see the counterexample),
but the session enforces collect-once: `_verificar_recoleccion_monedas`
only collects coins with `activo = true` and removes collected coins, so
an already-inactive coin in the coin list contributes no change to the
session score or to the player (its modifiers included). -/
theorem c7_recoleccion_una_vez (s : ControlJuego) (ms1 ms2 : List Moneda)
    (m : Moneda) (hm : m.activo = false) (hl : s.monedas = ms1 ++ m :: ms2) :
    (verificar_recoleccion_monedas s).puntos =
      (verificar_recoleccion_monedas { s with monedas := ms1 ++ ms2 }).puntos ∧
    (verificar_recoleccion_monedas s).jugador =
      (verificar_recoleccion_monedas { s with monedas := ms1 ++ ms2 }).jugador := by
  have h1 := pasadaMonedas_saltar_inactiva ms1 m ms2 s hm
  have h2 := pasadaMonedas_campo_monedas (ms1 ++ ms2) s (ms1 ++ ms2)
  constructor <;> simp only [verificar_recoleccion_monedas, hl, h1, h2]

/-- Witness for C7 amended, at a session whose only coin is already
inactive. -/
theorem c7_recoleccion_una_vez_witness :
    (verificar_recoleccion_monedas
        { sesion0 with monedas := [(moneda0.recolectar).1] }).puntos =
      (verificar_recoleccion_monedas
        { { sesion0 with monedas := [(moneda0.recolectar).1] } with
            monedas := [] ++ [] }).puntos ∧
    (verificar_recoleccion_monedas
        { sesion0 with monedas := [(moneda0.recolectar).1] }).jugador =
      (verificar_recoleccion_monedas
        { { sesion0 with monedas := [(moneda0.recolectar).1] } with
            monedas := [] ++ [] }).jugador :=
  c7_recoleccion_una_vez { sesion0 with monedas := [(moneda0.recolectar).1] }
    [] [] (moneda0.recolectar).1 rfl rfl

/-- A hit on an enemy with at most 1 health is lethal and leaves it
inactive. -/
theorem recibir_dano_letal (e : Enemigo) (h : e.vida ≤ 1) :
    e.recibir_dano = ({ e with vida := e.vida - 1, activo := false }, true) := by
  simp only [Enemigo.recibir_dano]
  rw [if_pos (by omega : e.vida - 1 ≤ 0)]

/-- A hit on an enemy with more than 1 health is not lethal. -/
theorem recibir_dano_no_letal (e : Enemigo) (h : 1 < e.vida) :
    e.recibir_dano = ({ e with vida := e.vida - 1 }, false) := by
  simp only [Enemigo.recibir_dano]
  rw [if_neg (by omega : ¬ e.vida - 1 ≤ 0)]

/-- C2: resolving a projectile hit on the first colliding enemy of the pass:
if the hit is lethal the score goes up by exactly 1, the kill counter by
exactly 1, one reward coin of value min(3, level // 2 + 1) is appended at
the enemy's position, and level-up (level + 1, counter reset, tightened
interval) fires exactly when the incremented counter reaches the quota;
a non-lethal hit leaves the score unchanged. -/
theorem c2_recompensa_por_muerte (env : Entorno) (p : Proyectil) (s : ControlJuego)
    (es1 : List Enemigo) (e : Enemigo) (es2 : List Enemigo)
    (h1 : ∀ e2 ∈ es1, p.toFigura.colision e2.toFigura = false)
    (h2 : p.toFigura.colision e.toFigura = true) :
    (e.vida ≤ 1 →
      (pasadaEnemigos (es1 ++ e :: es2) env p s).2.2.1.puntos = s.puntos + 1 ∧
      (pasadaEnemigos (es1 ++ e :: es2) env p s).2.2.1.monedas =
        s.monedas ++ [Moneda.crear e.posicion (env.tipoAleatorio env.rnd)
          (min 3 (s.nivel_actual / 2 + 1))] ∧
      (s.enemigos_eliminados_nivel + 1 < s.enemigos_para_siguiente_nivel →
        (pasadaEnemigos (es1 ++ e :: es2) env p s).2.2.1.enemigos_eliminados_nivel =
          s.enemigos_eliminados_nivel + 1 ∧
        (pasadaEnemigos (es1 ++ e :: es2) env p s).2.2.1.nivel_actual =
          s.nivel_actual ∧
        (pasadaEnemigos (es1 ++ e :: es2) env p s).2.2.1.intervalo_enemigo =
          s.intervalo_enemigo) ∧
      (s.enemigos_para_siguiente_nivel ≤ s.enemigos_eliminados_nivel + 1 →
        (pasadaEnemigos (es1 ++ e :: es2) env p s).2.2.1.enemigos_eliminados_nivel = 0 ∧
        (pasadaEnemigos (es1 ++ e :: es2) env p s).2.2.1.nivel_actual =
          s.nivel_actual + 1 ∧
        (pasadaEnemigos (es1 ++ e :: es2) env p s).2.2.1.intervalo_enemigo =
          max 2 (s.intervalo_enemigo - 1/2))) ∧
    (1 < e.vida →
      (pasadaEnemigos (es1 ++ e :: es2) env p s).2.2.1.puntos = s.puntos) := by
  have hps := pasadaEnemigos_prefijo es1 (e :: es2) env p s h1
  have hg := pasadaEnemigos_golpe e es2 env p s h2
  have hstate : (pasadaEnemigos (es1 ++ e :: es2) env p s).2.2.1 =
      (procesarImpacto env s e.recibir_dano).1 := by
    rw [hps, hg]
  constructor
  · intro hl
    rw [hstate, recibir_dano_letal e hl]
    simp only [procesarImpacto, generar_moneda_recompensa, if_true]
    by_cases ht : s.enemigos_para_siguiente_nivel ≤ s.enemigos_eliminados_nivel + 1
    · rw [if_pos ht]
      refine ⟨rfl, rfl, fun hlt => absurd ht (by omega), fun _ => ⟨rfl, rfl, rfl⟩⟩
    · rw [if_neg ht]
      refine ⟨rfl, rfl, fun _ => ⟨rfl, rfl, rfl⟩, fun hge => absurd hge ht⟩
  · intro hnl
    rw [hstate, recibir_dano_no_letal e hnl]
    rfl

/-- C5: in one inner pass, a projectile damages exactly the first enemy in
iteration order that it collides with — that enemy receives one
`recibir_dano`, every other enemy is untouched — and the projectile is
deactivated at that first resolved collision whether or not it was lethal;
with no colliding enemy the pass changes nothing at all. -/
theorem c5_proyectil_golpea_una_vez (env : Entorno) (p : Proyectil) (s : ControlJuego) :
    (∀ es1 e es2, (∀ e2 ∈ es1, p.toFigura.colision e2.toFigura = false) →
      p.toFigura.colision e.toFigura = true →
      (pasadaEnemigos (es1 ++ e :: es2) env p s).1 = { p with activo := false } ∧
      (pasadaEnemigos (es1 ++ e :: es2) env p s).2.1 =
        es1 ++ e.recibir_dano.1 :: es2) ∧
    (∀ es, (∀ e2 ∈ es, p.toFigura.colision e2.toFigura = false) →
      pasadaEnemigos es env p s = (p, es, s, env)) := by
  constructor
  · intro es1 e es2 h1 h2
    have hps := pasadaEnemigos_prefijo es1 (e :: es2) env p s h1
    have hg := pasadaEnemigos_golpe e es2 env p s h2
    constructor
    · rw [hps, hg]
    · rw [hps, hg]
  · intro es h
    exact pasadaEnemigos_sin_colision es env p s h

/-- Witness for C2 at the concrete lethal hit: projectile overlapping the
1-health enemy in the score-2, level-1 session. -/
theorem c2_recompensa_por_muerte_witness :
    (pasadaEnemigos ([] ++ enemigoDebil :: []) entorno0 proyectil0 sesion0).2.2.1.puntos =
      sesion0.puntos + 1 ∧
    (pasadaEnemigos ([] ++ enemigoDebil :: []) entorno0 proyectil0 sesion0).2.2.1.monedas =
      sesion0.monedas ++ [Moneda.crear enemigoDebil.posicion
        (entorno0.tipoAleatorio entorno0.rnd) (min 3 (sesion0.nivel_actual / 2 + 1))] ∧
    (pasadaEnemigos ([] ++ enemigoDebil :: [])
        entorno0 proyectil0 sesion0).2.2.1.enemigos_eliminados_nivel =
      sesion0.enemigos_eliminados_nivel + 1 := by
  have h := (c2_recompensa_por_muerte entorno0 proyectil0 sesion0 [] enemigoDebil []
    (by simp)
    (by norm_num [Figura.colision, Vector2D.magnitudLe, Vector2D.normaCuadrada,
      Vector2D.sub, proyectil0, enemigoDebil, enemigo0])).1
    (by norm_num [enemigoDebil, enemigo0])
  exact ⟨h.1, h.2.1, (h.2.2.1 (by norm_num [sesion0])).1⟩

/-- Witness for C5 at the concrete collision, and at the empty enemy list. -/
theorem c5_proyectil_golpea_una_vez_witness :
    (pasadaEnemigos ([] ++ enemigoDebil :: []) entorno0 proyectil0 sesion0).1 =
      { proyectil0 with activo := false } ∧
    (pasadaEnemigos ([] ++ enemigoDebil :: []) entorno0 proyectil0 sesion0).2.1 =
      [] ++ enemigoDebil.recibir_dano.1 :: [] ∧
    pasadaEnemigos [] entorno0 proyectil0 sesion0 =
      (proyectil0, [], sesion0, entorno0) := by
  have h := c5_proyectil_golpea_una_vez entorno0 proyectil0 sesion0
  have h1 := h.1 [] enemigoDebil [] (by simp)
    (by norm_num [Figura.colision, Vector2D.magnitudLe, Vector2D.normaCuadrada,
      Vector2D.sub, proyectil0, enemigoDebil, enemigo0])
  exact ⟨h1.1, h1.2, h.2 [] (by simp)⟩

/-- C1 counterexample, at the concrete running session with score 2, one
overlapping enemy and one overlapping bonus coin worth 3, with the damage
cooldown elapsing this frame: the enemy contact brings the score to 0, the
game-over check (code step 6) fires on that pre-coin score, and only then
is the coin collected (code step 8) — the update ends game-over with a
positive score 3.  Under the claimed order (coins resolved before the
game-over check, `actualizar_spec`) the same input ends not game-over, so
the game-over decision does not observe same-frame coin bonuses. -/
theorem c1_contraejemplo :
    resultadoGameOver (actualizar entorno0 1 sesion0) = true ∧
    resultadoPuntos (actualizar entorno0 1 sesion0) = 3 ∧
    resultadoGameOver (actualizar_spec entorno0 1 sesion0) = false := by
  norm_num [actualizar, actualizar_spec, trasPaso5, estadoTrasPaso5, pasoTiempos,
    pasoMover, respawnear_enemigo, verificar_colisiones_proyectiles,
    pasadaProyectiles, pasadaEnemigos, procesarImpacto,
    verificar_colision_jugador_enemigo, pasadaJugadorEnemigo, pasoMantenimiento,
    pasoGameOver, actualizar_monedas, Moneda.actualizar,
    verificar_recoleccion_monedas, pasadaMonedas, Moneda.recolectar,
    Jugador.aplicar_mejora, pasoBarrido, Figura.colision, Vector2D.magnitudLe,
    Vector2D.normaCuadrada, Vector2D.sub, entorno0, sesion0, jugador0, enemigo0,
    moneda0, Moneda.crear, resultadoGameOver, resultadoPuntos]

/-- C1 amended: within a running update, Player × Coin resolution runs after
population maintenance and after the game-over check (it precedes only the
sweep), so the game-over and running flags of the update are exactly those
decided by the game-over check on the state after step 5 — untouched by the
coin steps — and the coin steps can only add to the score afterwards; the
steps before the check never modify the game-over flag. -/
theorem c1_monedas_despues_del_game_over (env : Entorno) (dt : ℚ) (s : ControlJuego)
    (hdt : 0 < dt) (hj : s.jugando = true) :
    resultadoGameOver (actualizar env dt s) =
      (pasoGameOver (estadoTrasPaso5 env dt s)).game_over ∧
    resultadoJugando (actualizar env dt s) =
      (pasoGameOver (estadoTrasPaso5 env dt s)).jugando ∧
    (pasoGameOver (estadoTrasPaso5 env dt s)).puntos ≤
      resultadoPuntos (actualizar env dt s) ∧
    (estadoTrasPaso5 env dt s).game_over = s.game_over := by
  rw [actualizar_correr env dt s hdt hj]
  simp only [resultadoGameOver, resultadoJugando, resultadoPuntos]
  have hA := flags_actualizar_monedas dt (pasoGameOver (estadoTrasPaso5 env dt s))
  have hB := flags_verificar_recoleccion
    (actualizar_monedas dt (pasoGameOver (estadoTrasPaso5 env dt s)))
  have hC := flags_pasoBarrido (verificar_recoleccion_monedas
    (actualizar_monedas dt (pasoGameOver (estadoTrasPaso5 env dt s))))
  refine ⟨?_, ?_, ?_, (flags_estadoTrasPaso5 env dt s).1⟩
  · exact hC.1.trans (hB.1.trans hA.1)
  · exact hC.2.1.trans (hB.2.1.trans hA.2.1)
  · calc (pasoGameOver (estadoTrasPaso5 env dt s)).puntos
        = (actualizar_monedas dt (pasoGameOver (estadoTrasPaso5 env dt s))).puntos :=
          hA.2.2.symm
      _ ≤ (verificar_recoleccion_monedas (actualizar_monedas dt
            (pasoGameOver (estadoTrasPaso5 env dt s)))).puntos := hB.2.2
      _ = (pasoBarrido (verificar_recoleccion_monedas (actualizar_monedas dt
            (pasoGameOver (estadoTrasPaso5 env dt s))))).puntos := hC.2.2.symm

/-- Witness for C1 amended at the concrete session. -/
theorem c1_monedas_despues_del_game_over_witness :
    resultadoGameOver (actualizar entorno0 1 sesion0) =
      (pasoGameOver (estadoTrasPaso5 entorno0 1 sesion0)).game_over ∧
    resultadoJugando (actualizar entorno0 1 sesion0) =
      (pasoGameOver (estadoTrasPaso5 entorno0 1 sesion0)).jugando ∧
    (pasoGameOver (estadoTrasPaso5 entorno0 1 sesion0)).puntos ≤
      resultadoPuntos (actualizar entorno0 1 sesion0) ∧
    (estadoTrasPaso5 entorno0 1 sesion0).game_over = sesion0.game_over :=
  c1_monedas_despues_del_game_over entorno0 1 sesion0 (by norm_num) rfl

/-- A stopped session is never changed by a run of updates. -/
theorem ejecutar_parado (dts : List ℚ) (env : Entorno) (s : ControlJuego)
    (p : ControlJuego × Entorno) (hj : s.jugando = false)
    (hok : ejecutar dts env s = Except.ok p) : p.1 = s := by
  induction dts generalizing env with
  | nil =>
      simp only [ejecutar, Except.ok.injEq] at hok
      rw [← hok]
  | cons dt resto ih =>
      by_cases hdt : dt ≤ 0
      · have herr : actualizar env dt s = Except.error () := by simp [actualizar, hdt]
        simp only [ejecutar, herr] at hok
        exact absurd hok (by simp)
      · have hnoop : actualizar env dt s = Except.ok (s, env) := by
          simp [actualizar, not_le.mpr (not_le.mp hdt), hj]
        simp only [ejecutar, hnoop] at hok
        exact ih env hok

/-- C4: when an update on a running session finds the score ≤ 0 at the
game-over check (and not already game-over), it sets game-over, stops the
session, and clamps the score to 0, ending the call with a non-negative
score; the invariant "game-over implies stopped and non-negative score" is
preserved by every successful update; and from any state where game-over
has been observed (stopped, score ≥ 0), every further sequence of updates
keeps the score ≥ 0. -/
theorem c4_puntuacion_no_negativa (env : Entorno) (s : ControlJuego) :
    (∀ dt, 0 < dt → s.jugando = true →
      (estadoTrasPaso5 env dt s).puntos ≤ 0 →
      (estadoTrasPaso5 env dt s).game_over = false →
      resultadoGameOver (actualizar env dt s) = true ∧
      resultadoJugando (actualizar env dt s) = false ∧
      (pasoGameOver (estadoTrasPaso5 env dt s)).puntos = 0 ∧
      0 ≤ resultadoPuntos (actualizar env dt s)) ∧
    (∀ dt p, InvGameOver s → actualizar env dt s = Except.ok p → InvGameOver p.1) ∧
    (∀ dts p, s.game_over = true → s.jugando = false → 0 ≤ s.puntos →
      ejecutar dts env s = Except.ok p → 0 ≤ p.1.puntos) := by
  have principal : ∀ dt, 0 < dt → s.jugando = true →
      (estadoTrasPaso5 env dt s).puntos ≤ 0 →
      (estadoTrasPaso5 env dt s).game_over = false →
      resultadoGameOver (actualizar env dt s) = true ∧
      resultadoJugando (actualizar env dt s) = false ∧
      (pasoGameOver (estadoTrasPaso5 env dt s)).puntos = 0 ∧
      0 ≤ resultadoPuntos (actualizar env dt s) := by
    intro dt h1 h2 h3 h4
    rw [actualizar_correr env dt s h1 h2]
    simp only [resultadoGameOver, resultadoJugando, resultadoPuntos]
    have hgo : pasoGameOver (estadoTrasPaso5 env dt s) =
        { estadoTrasPaso5 env dt s with
            game_over := true, jugando := false, puntos := 0 } := by
      simp only [pasoGameOver]
      rw [if_pos ⟨h3, h4⟩]
    have hA := flags_actualizar_monedas dt (pasoGameOver (estadoTrasPaso5 env dt s))
    have hB := flags_verificar_recoleccion
      (actualizar_monedas dt (pasoGameOver (estadoTrasPaso5 env dt s)))
    have hC := flags_pasoBarrido (verificar_recoleccion_monedas
      (actualizar_monedas dt (pasoGameOver (estadoTrasPaso5 env dt s))))
    refine ⟨?_, ?_, ?_, ?_⟩
    · rw [hC.1.trans (hB.1.trans hA.1), hgo]
    · rw [hC.2.1.trans (hB.2.1.trans hA.2.1), hgo]
    · rw [hgo]
    · have h0 : (pasoGameOver (estadoTrasPaso5 env dt s)).puntos = 0 := by rw [hgo]
      calc (0 : ℤ) = (pasoGameOver (estadoTrasPaso5 env dt s)).puntos := h0.symm
        _ = (actualizar_monedas dt (pasoGameOver (estadoTrasPaso5 env dt s))).puntos :=
            hA.2.2.symm
        _ ≤ (verificar_recoleccion_monedas (actualizar_monedas dt
              (pasoGameOver (estadoTrasPaso5 env dt s)))).puntos := hB.2.2
        _ = (pasoBarrido (verificar_recoleccion_monedas (actualizar_monedas dt
              (pasoGameOver (estadoTrasPaso5 env dt s))))).puntos := hC.2.2.symm
  refine ⟨principal, fun dt p hInv hok => ?_, fun dts p hgo hjf hpos hok => ?_⟩
  · by_cases hdt : dt ≤ 0
    · have herr : actualizar env dt s = Except.error () := by simp [actualizar, hdt]
      rw [herr] at hok
      exact absurd hok (by simp)
    · have hdt2 : 0 < dt := not_le.mp hdt
      by_cases hj : s.jugando = false
      · have hnoop : actualizar env dt s = Except.ok (s, env) := by
          simp [actualizar, not_le.mpr hdt2, hj]
        rw [hnoop] at hok
        injection hok with h
        rw [← h]
        exact hInv
      · simp only [Bool.not_eq_false] at hj
        have hsgo : s.game_over = false := by
          cases hgo2 : s.game_over with
          | false => rfl
          | true => exact absurd (hInv hgo2).1 (by simp [hj])
        rw [actualizar_correr env dt s hdt2 hj] at hok
        injection hok with h
        rw [← h]
        intro hgofinal
        have h5go : (estadoTrasPaso5 env dt s).game_over = false :=
          (flags_estadoTrasPaso5 env dt s).1.trans hsgo
        have hA := flags_actualizar_monedas dt (pasoGameOver (estadoTrasPaso5 env dt s))
        have hB := flags_verificar_recoleccion
          (actualizar_monedas dt (pasoGameOver (estadoTrasPaso5 env dt s)))
        have hC := flags_pasoBarrido (verificar_recoleccion_monedas
          (actualizar_monedas dt (pasoGameOver (estadoTrasPaso5 env dt s))))
        have hchain : (pasoBarrido (verificar_recoleccion_monedas (actualizar_monedas dt
            (pasoGameOver (estadoTrasPaso5 env dt s))))).game_over =
            (pasoGameOver (estadoTrasPaso5 env dt s)).game_over :=
          hC.1.trans (hB.1.trans hA.1)
        by_cases hcond : (estadoTrasPaso5 env dt s).puntos ≤ 0 ∧
            (estadoTrasPaso5 env dt s).game_over = false
        · have hgo : pasoGameOver (estadoTrasPaso5 env dt s) =
              { estadoTrasPaso5 env dt s with
                  game_over := true, jugando := false, puntos := 0 } := by
            simp only [pasoGameOver]
            rw [if_pos hcond]
          constructor
          · rw [hC.2.1.trans (hB.2.1.trans hA.2.1), hgo]
          · have h0 : (pasoGameOver (estadoTrasPaso5 env dt s)).puntos = 0 := by rw [hgo]
            calc (0 : ℤ) = (pasoGameOver (estadoTrasPaso5 env dt s)).puntos := h0.symm
              _ = (actualizar_monedas dt
                    (pasoGameOver (estadoTrasPaso5 env dt s))).puntos := hA.2.2.symm
              _ ≤ (verificar_recoleccion_monedas (actualizar_monedas dt
                    (pasoGameOver (estadoTrasPaso5 env dt s)))).puntos := hB.2.2
              _ = (pasoBarrido (verificar_recoleccion_monedas (actualizar_monedas dt
                    (pasoGameOver (estadoTrasPaso5 env dt s))))).puntos := hC.2.2.symm
        · have hid : pasoGameOver (estadoTrasPaso5 env dt s) =
              estadoTrasPaso5 env dt s := by
            simp only [pasoGameOver]
            rw [if_neg hcond]
          rw [hchain, hid, h5go] at hgofinal
          exact absurd hgofinal (by simp)
  · rw [ejecutar_parado dts env s p hjf hok]
    exact hpos

/-- Witness for C4: the concrete frame in which the score hits 0 triggers
game over with final score ≥ 0; the invariant is preserved across that
concrete update; and updates after game over keep the score at ≥ 0. -/
theorem c4_puntuacion_no_negativa_witness :
    (resultadoGameOver (actualizar entorno0 1 sesion0) = true ∧
      resultadoJugando (actualizar entorno0 1 sesion0) = false ∧
      (pasoGameOver (estadoTrasPaso5 entorno0 1 sesion0)).puntos = 0 ∧
      0 ≤ resultadoPuntos (actualizar entorno0 1 sesion0)) ∧
    InvGameOver (pasoBarrido (verificar_recoleccion_monedas (actualizar_monedas 1
      (pasoGameOver (estadoTrasPaso5 entorno0 1 sesion0))))) ∧
    0 ≤ ((sesionTerminada, entorno0) : ControlJuego × Entorno).1.puntos := by
  have hpaso5 : (estadoTrasPaso5 entorno0 1 sesion0).puntos ≤ 0 ∧
      (estadoTrasPaso5 entorno0 1 sesion0).game_over = false := by
    norm_num [estadoTrasPaso5, trasPaso5, pasoTiempos, pasoMover, respawnear_enemigo,
      verificar_colisiones_proyectiles, pasadaProyectiles, pasadaEnemigos,
      procesarImpacto, verificar_colision_jugador_enemigo, pasadaJugadorEnemigo,
      pasoMantenimiento, Figura.colision, Vector2D.magnitudLe, Vector2D.normaCuadrada,
      Vector2D.sub, entorno0, sesion0, jugador0, enemigo0, moneda0, Moneda.crear]
  refine ⟨(c4_puntuacion_no_negativa entorno0 sesion0).1 1 (by norm_num) rfl
      hpaso5.1 hpaso5.2, ?_, ?_⟩
  · exact (c4_puntuacion_no_negativa entorno0 sesion0).2.1 1
      (pasoBarrido (verificar_recoleccion_monedas (actualizar_monedas 1
        (pasoGameOver (estadoTrasPaso5 entorno0 1 sesion0)))),
       (trasPaso5 entorno0 1 sesion0).2)
      (fun h => absurd h (by norm_num [sesion0]))
      (actualizar_correr entorno0 1 sesion0 (by norm_num) rfl)
  · exact (c4_puntuacion_no_negativa entorno0 sesionTerminada).2.2 [1]
      (sesionTerminada, entorno0) rfl rfl (by norm_num [sesionTerminada, sesion0])
      (by norm_num [ejecutar, actualizar, sesionTerminada])

/-- Witness for C8: after 7 level-ups from the initial interval 5.0 the
interval is max(2, 5 - 3.5) = 2. -/
theorem c8_subir_nivel_witness :
    (subir_nivel sesion0).nivel_actual = sesion0.nivel_actual + 1 ∧
    (subir_nivel sesion0).enemigos_eliminados_nivel = 0 ∧
    (subir_nivel^[7] sesion0).intervalo_enemigo = max 2 (5 - (7 : ℚ) / 2) :=
  ⟨(c8_subir_nivel sesion0).1, (c8_subir_nivel sesion0).2.1,
   (c8_subir_nivel sesion0).2.2.2 rfl 7⟩
